import Mathlib

/-!
Shallow embedding of `DonateContract.sol` (fhevm-hardhat-template), an
encrypted charity-campaign contract built on the FHE coprocessor library.

Modelling conventions:
* Addresses and ciphertext handles are naturals; `0` plays the role of
  `address(0)` and of the uninitialized ciphertext handle.
* The FHE coprocessor is symbolic: every ciphertext-producing operation
  (`asEuint128`, `fromExternal`, `asEaddress`, `add`) allocates a fresh
  handle in an append-only store mapping handles to their plaintexts.
  `euint128` arithmetic wraps modulo `2 ^ 128`, and the FHE library treats
  the uninitialized handle `0` as a trivial encryption of zero.
* `FHE.requestDecryption` allocates a fresh request id and records the
  ordered handle list; `FHE.checkSignatures` accepts a callback payload iff
  the request id was issued and the cleartexts are the true plaintexts of
  the requested handles (KMS-signed).  Verification is stateless: it does
  not by itself consume the request.
* External functions return `Except String (State × List Event)`; an
  `.error` result models an EVM revert (all state mutations of the call are
  discarded, so an error leaves the contract state unchanged by
  construction), with the string matching the Solidity `require` message.
* `msg.value` is an explicit argument of `donate`; the contract's native
  balance grows by `msg.value` on a successful `donate` and shrinks on the
  `transfer` in `callbackEndCampaign` (the recipient is an EOA, so the
  transfer itself succeeds).
-/

namespace Donate

/-- The number of values of `uint128` / `euint128`. -/
def U128 : Nat := 2 ^ 128

/-- State of the symbolic FHE coprocessor and decryption gateway. -/
structure FHEState where
  nextHandle : Nat
  val : Nat → Nat
  aclThis : Nat → Bool
  acl : Nat → Nat → Bool
  nextRequestId : Nat
  issued : Nat → Option (List Nat)

/-- Allocate a fresh ciphertext handle holding plaintext `n`. -/
def FHEState.alloc (s : FHEState) (n : Nat) : Nat × FHEState :=
  (s.nextHandle,
   { s with
     nextHandle := s.nextHandle + 1
     val := fun h => if h = s.nextHandle then n else s.val h })

/-- FHE.asEuint128: trivial encryption of a 128-bit value. -/
def FHEState.asEuint128 (s : FHEState) (n : Nat) : Nat × FHEState :=
  s.alloc (n % U128)

/-- FHE.fromExternal on an `externalEuint128`: the input proof is assumed
valid and `plain` is the plaintext of the external ciphertext. -/
def FHEState.fromExternal (s : FHEState) (plain : Nat) : Nat × FHEState :=
  s.alloc (plain % U128)

/-- FHE.asEaddress: trivial encryption of a 160-bit address. -/
def FHEState.asEaddress (s : FHEState) (a : Nat) : Nat × FHEState :=
  s.alloc (a % 2 ^ 160)

/-- Plaintext of a handle as seen by FHE operations: the library substitutes
a trivial zero for the uninitialized handle `0`. -/
def FHEState.getVal (s : FHEState) (h : Nat) : Nat :=
  if h = 0 then 0 else s.val h

/-- FHE.add on `euint128`: homomorphic addition, wrapping modulo `2 ^ 128`. -/
def FHEState.add (s : FHEState) (a b : Nat) : Nat × FHEState :=
  s.alloc ((s.getVal a + s.getVal b) % U128)

/-- FHE.allowThis: grant the contract itself decryption permission. -/
def FHEState.allowThis (s : FHEState) (h : Nat) : FHEState :=
  { s with aclThis := fun h2 => h2 = h || s.aclThis h2 }

/-- FHE.allow: grant principal `a` decryption permission on `h`. -/
def FHEState.allow (s : FHEState) (h : Nat) (a : Nat) : FHEState :=
  { s with acl := fun h2 a2 => (h2 = h && a2 = a) || s.acl h2 a2 }

/-- FHE.requestDecryption: allocate a fresh request id for the ordered
handle list `cts`. -/
def FHEState.requestDecryption (s : FHEState) (cts : List Nat) :
    Nat × FHEState :=
  (s.nextRequestId,
   { s with
     nextRequestId := s.nextRequestId + 1
     issued := fun r => if r = s.nextRequestId then some cts else s.issued r })

/-- FHE.checkSignatures: a callback payload verifies iff `requestId` was
issued and `cleartexts` are the true plaintexts of the requested handles. -/
def FHEState.checkSignatures (s : FHEState) (requestId : Nat)
    (cleartexts : List Nat) : Bool :=
  match s.issued requestId with
  | some hs => cleartexts == hs.map s.getVal
  | none => false

/-- Events of `DonateContract`, with plaintext fields decoded. -/
inductive Event where
  | CampaignStarted (owner : Nat) (target : Nat)
  | CampaignEnded (owner : Nat) (finalAmount : Nat)
  | Donated (donor : Nat) (amount : Nat)
  | WithdrawalRequested (owner : Nat) (amount : Nat)
  | Withdrawn (owner : Nat) (amount : Nat)
  | TargetUpdated (newTarget : Nat)
  | CampaignProgress (total target percentage : Nat)
  deriving DecidableEq

/-- Storage of `DonateContract`, plus the FHE coprocessor state and the
contract's native balance. -/
structure State where
  fhe : FHEState
  campaignActive : Bool
  charityOwner : Nat
  totalDonations : Nat
  targetAmount : Nat
  donorBalances : Nat → Nat
  encryptedDonorAddresses : Nat → Nat
  pendingWithdrawals : Nat → Nat
  balance : Nat

/-- The FHE gateway state at contract deployment. -/
def initialFHE : FHEState :=
  { nextHandle := 1
    val := fun _ => 0
    aclThis := fun _ => false
    acl := fun _ _ => false
    nextRequestId := 1
    issued := fun _ => none }

/-- The constructor: `campaignActive = false`, `_totalDonations` and
`_targetAmount` set to trivial encryptions of zero. -/
def deploy : State :=
  let total := (initialFHE.asEuint128 0).1
  let f1 := (initialFHE.asEuint128 0).2
  let target := (f1.asEuint128 0).1
  let f2 := (f1.asEuint128 0).2
  { fhe := f2
    campaignActive := false
    charityOwner := 0
    totalDonations := total
    targetAmount := target
    donorBalances := fun _ => 0
    encryptedDonorAddresses := fun _ => 0
    pendingWithdrawals := fun _ => 0
    balance := 0 }

/-- `startCampaign(encryptedTarget, targetProof)`: guarded by
`whenNotActive`; records the caller as owner, activates the campaign,
stores the target, resets the total to a fresh encrypted zero, and grants
the contract and the owner decryption permission on both handles. -/
def startCampaign (c : State) (sender : Nat) (targetPlain : Nat) :
    Except String (State × List Event) :=
  if c.campaignActive then .error "Campaign active" else
    let target := (c.fhe.fromExternal targetPlain).1
    let f1 := (c.fhe.fromExternal targetPlain).2
    let zeroH := (f1.asEuint128 0).1
    let f2 := (f1.asEuint128 0).2
    let f3 := (((f2.allowThis target).allow target sender).allowThis
        zeroH).allow zeroH sender
    .ok ({ c with
           fhe := f3
           charityOwner := sender
           campaignActive := true
           targetAmount := target
           totalDonations := zeroH },
         [Event.CampaignStarted sender target])

/-- `endCampaign()`: guarded by `onlyOwner` then `whenActive`; clears
`campaignActive`, requests decryption of `[_totalDonations]` and records the
caller under the fresh request id in `_pendingWithdrawals`. -/
def endCampaign (c : State) (sender : Nat) :
    Except String (State × List Event) :=
  if sender = c.charityOwner then
    if c.campaignActive then
      let requestId := (c.fhe.requestDecryption [c.totalDonations]).1
      let f1 := (c.fhe.requestDecryption [c.totalDonations]).2
      .ok ({ c with
             fhe := f1
             campaignActive := false
             pendingWithdrawals := fun r =>
               if r = requestId then sender else c.pendingWithdrawals r },
           [Event.WithdrawalRequested sender c.totalDonations])
    else .error "Campaign not active"
  else .error "Not owner"

/-- `updateTarget(encryptedTarget, targetProof)`: guarded by `onlyOwner`
then `whenActive`; replaces the target handle and regrants permissions. -/
def updateTarget (c : State) (sender : Nat) (targetPlain : Nat) :
    Except String (State × List Event) :=
  if sender = c.charityOwner then
    if c.campaignActive then
      let target := (c.fhe.fromExternal targetPlain).1
      let f1 := (c.fhe.fromExternal targetPlain).2
      let f2 := (f1.allowThis target).allow target c.charityOwner
      .ok ({ c with fhe := f2, targetAmount := target },
           [Event.TargetUpdated target])
    else .error "Campaign not active"
  else .error "Not owner"

/-- `donate(encryptedAmount, amountProof)` with `msg.value = msgValue` and
`amountPlain` the plaintext of the encrypted amount: guarded by
`whenActive`, `msg.value > 0` and `msg.value <= type(uint128).max`;
homomorphically adds the amount to the running total and to the sender's
balance, stores the encrypted donor address, and refreshes permissions. -/
def donate (c : State) (sender : Nat) (msgValue : Nat) (amountPlain : Nat) :
    Except String (State × List Event) :=
  if c.campaignActive then
    if 0 < msgValue then
      if msgValue ≤ U128 - 1 then
        let amount := (c.fhe.fromExternal amountPlain).1
        let f1 := (c.fhe.fromExternal amountPlain).2
        let encryptedDonor := (f1.asEaddress sender).1
        let f2 := (f1.asEaddress sender).2
        let newTotal := (f2.add c.totalDonations amount).1
        let f3 := (f2.add c.totalDonations amount).2
        let newBalance := (f3.add (c.donorBalances sender) amount).1
        let f4 := (f3.add (c.donorBalances sender) amount).2
        let f5 := (((f4.allowThis newTotal).allow newTotal
            c.charityOwner).allowThis newBalance).allow newBalance sender
        .ok ({ c with
               fhe := f5
               totalDonations := newTotal
               donorBalances := fun a =>
                 if a = sender then newBalance else c.donorBalances a
               encryptedDonorAddresses := fun a =>
                 if a = sender then encryptedDonor
                 else c.encryptedDonorAddresses a
               balance := c.balance + msgValue },
             [Event.Donated sender amount])
      else .error "Amount too large"
    else .error "Donation > 0"
  else .error "Campaign not active"

/-- `requestProgress()`: guarded by `whenActive`; requests decryption of
`[_totalDonations, _targetAmount]` and returns the request id.  No pending
record is stored for progress requests. -/
def requestProgress (c : State) : Except String (State × Nat) :=
  if c.campaignActive then
    let requestId :=
      (c.fhe.requestDecryption [c.totalDonations, c.targetAmount]).1
    let f1 := (c.fhe.requestDecryption [c.totalDonations, c.targetAmount]).2
    .ok ({ c with fhe := f1 }, requestId)
  else .error "Campaign not active"

/-- `callbackEndCampaign(requestId, cleartexts, proof)`: verifies the KMS
signatures, decodes a single `uint128`, looks up and deletes the pending
withdrawer, requires it to equal the current owner, requires the contract
balance to cover the decrypted amount, transfers it, and emits `Withdrawn`
then `CampaignEnded`.  On any failed `require` the whole call reverts, so
the `delete` is rolled back as well. -/
def callbackEndCampaign (c : State) (requestId : Nat)
    (cleartexts : List Nat) : Except String (State × List Event) :=
  if c.fhe.checkSignatures requestId cleartexts then
    match cleartexts with
    | [decryptedAmount] =>
      let withdrawer := c.pendingWithdrawals requestId
      let c1 : State :=
        { c with pendingWithdrawals := fun r =>
            if r = requestId then 0 else c.pendingWithdrawals r }
      if withdrawer = c1.charityOwner then
        if decryptedAmount ≤ c1.balance then
          .ok ({ c1 with balance := c1.balance - decryptedAmount },
               [Event.Withdrawn withdrawer decryptedAmount,
                Event.CampaignEnded withdrawer decryptedAmount])
        else .error "Insufficient balance"
      else .error "Not owner"
    | _ => .error "abi.decode reverted"
  else .error "KMS signature verification failed"

/-- `callbackProgress(requestId, cleartexts, proof)`: verifies the KMS
signatures, decodes two `uint128` values, computes
`target > 0 ? (total * 100) / target : 0` (the multiplication is checked
`uint128` arithmetic, so it panics when `total * 100 ≥ 2 ^ 128`; it is not
evaluated at all when `target = 0`), and emits `CampaignProgress`.  It
consults no pending-request record and mutates no contract storage. -/
def callbackProgress (c : State) (requestId : Nat) (cleartexts : List Nat) :
    Except String (State × List Event) :=
  if c.fhe.checkSignatures requestId cleartexts then
    match cleartexts with
    | [total, target] =>
      if 0 < target then
        if total * 100 < U128 then
          .ok (c, [Event.CampaignProgress total target (total * 100 / target)])
        else .error "panic: arithmetic overflow"
      else .ok (c, [Event.CampaignProgress total target 0])
    | _ => .error "abi.decode reverted"
  else .error "KMS signature verification failed"

/-- `balanceOf(donor)`: the donor's encrypted balance handle. -/
def balanceOf (c : State) (donor : Nat) : Nat :=
  c.donorBalances donor

/-- One `donate` call: sender, `msg.value`, and the plaintext encrypted
in the submitted `externalEuint128` amount. -/
structure DonationCall where
  sender : Nat
  msgValue : Nat
  amountPlain : Nat
  deriving DecidableEq

/-- A sequence of successful `donate` calls, failing if any call fails. -/
def donateSeq (c : State) : List DonationCall → Except String State
  | [] => .ok c
  | d :: ds =>
    match donate c d.sender d.msgValue d.amountPlain with
    | .ok p => donateSeq p.1 ds
    | .error e => .error e

/-- Sum of the plaintext amounts of a list of donate calls. -/
def sumAmounts (ds : List DonationCall) : Nat :=
  (ds.map DonationCall.amountPlain).sum

/-- True iff the call succeeded (did not revert). -/
def callOk {α : Type} (e : Except String α) : Bool :=
  match e with
  | .ok _ => true
  | .error _ => false

/-- Post-state of a successful external call (`deploy` as a dummy default). -/
def okState (e : Except String (State × List Event)) : State :=
  match e with
  | .ok p => p.1
  | .error _ => deploy

/-- Events emitted by a successful external call. -/
def okEvents (e : Except String (State × List Event)) : List Event :=
  match e with
  | .ok p => p.2
  | .error _ => []

/-- Post-state of a successful `requestProgress` call. -/
def okStateR (e : Except String (State × Nat)) : State :=
  match e with
  | .ok p => p.1
  | .error _ => deploy

/-- Request id returned by a successful `requestProgress` call. -/
def okRid (e : Except String (State × Nat)) : Nat :=
  match e with
  | .ok p => p.2
  | .error _ => 0

/-- Revert message of a failed call (empty string if it succeeded). -/
def errMsg {α : Type} (e : Except String α) : String :=
  match e with
  | .ok _ => ""
  | .error s => s

/-- Post-state of a successful `donateSeq` run. -/
def okStateS (e : Except String State) : State :=
  match e with
  | .ok c => c
  | .error _ => deploy

/-- Example trace: owner `1` starts a campaign with target `1000`. -/
def exStart : State := okState (startCampaign deploy 1 1000)

/-- Example trace: donor `2` donates `500` wei with encrypted amount `500`. -/
def exDon : State := okState (donate exStart 2 500 500)

/-- Example trace: the owner ends the campaign; request id `1` is issued
over the total handle and the withdrawal becomes pending. -/
def exEnd : State := okState (endCampaign exDon 1)

/-- Underfunded trace: donor `2` pays only `1` wei but submits an encrypted
amount of `500`, so the decrypted total exceeds the held balance. -/
def exDonLow : State := okState (donate exStart 2 1 500)

/-- Underfunded trace: the owner ends the underfunded campaign. -/
def exEndLow : State := okState (endCampaign exDonLow 1)

/-- Progress trace: owner `1` starts with target `200` and donor `2`
donates `50`. -/
def prStart : State := okState (startCampaign deploy 1 200)

/-- Progress trace: the donation of `50`. -/
def prDon : State := okState (donate prStart 2 50 50)

/-- Progress trace: progress decryption is requested (request id `1`). -/
def prReq : State := okStateR (requestProgress prDon)

/-- Progress trace: the progress callback has run once for request `1`. -/
def prOnce : State := okState (callbackProgress prReq 1 [50, 200])

/-- Overflow trace: donor `2` pays `1` wei with encrypted amount `2 ^ 122`. -/
def ovDon : State := okState (donate prStart 2 1 (2 ^ 122))

/-- Overflow trace: progress decryption requested on the huge total. -/
def ovReq : State := okStateR (requestProgress ovDon)

/-- Restart trace: the campaign is ended right after starting (request id
`1` still pending) ... -/
def rsEnd : State := okState (endCampaign exStart 1)

/-- Restart trace: ... and immediately restarted by the same owner before
the end-campaign callback runs. -/
def rsRestart : State := okState (startCampaign rsEnd 1 777)

/-- Cross-campaign trace: donor `2` donates `100` in the first campaign. -/
def xcDon1 : State := okState (donate exStart 2 100 100)

/-- Cross-campaign trace: the first campaign is ended. -/
def xcEnd : State := okState (endCampaign xcDon1 1)

/-- Cross-campaign trace: a second campaign is started. -/
def xcStart2 : State := okState (startCampaign xcEnd 1 555)

/-- Cross-campaign trace: donor `2` donates `50` in the second campaign. -/
def xcDon2 : State := okState (donate xcStart2 2 50 50)

/-- Frozen-total trace: after the progress request, donor `3` donates `7`
more. -/
def frDon2 : State := okState (donate prReq 3 7 7)

/-- Frozen-total trace: the campaign is then ended, so the progress
callback for request `1` arrives on an inactive campaign. -/
def frEnd : State := okState (endCampaign frDon2 1)

/-- Sequence trace: the single donation of `500`, as a `donateSeq` run. -/
def exSeq : Except String State := donateSeq exStart [⟨2, 500, 500⟩]

/-- Sequence trace: the state after the run. -/
def exSeqS : State := okStateS exSeq

/-- Sequence trace: the campaign is then ended (request id `1`). -/
def exSeqEnd : State := okState (endCampaign exSeqS 1)

/-- Wraparound trace: two donations whose encrypted amounts are `2 ^ 127`
each (each within the 128-bit range, but their sum is `2 ^ 128`). -/
def wrapSeq : Except String State :=
  donateSeq exStart [⟨2, 1, 2 ^ 127⟩, ⟨3, 1, 2 ^ 127⟩]

/-- Wraparound trace: the state after the two donations. -/
def wrapS : State := okStateS wrapSeq

/-- Wraparound trace: the campaign is then ended (request id `1`). -/
def wrapEnd : State := okState (endCampaign wrapS 1)

/-! ### Bookkeeping lemmas about the symbolic FHE state -/

theorem alloc_getVal_of_lt (s : FHEState) (n : Nat) (h : Nat)
    (hh : h < s.nextHandle) : (s.alloc n).2.getVal h = s.getVal h := by
  simp [FHEState.alloc, FHEState.getVal, Nat.ne_of_lt hh]

theorem alloc_getVal_self (s : FHEState) (n : Nat)
    (h1 : 1 ≤ s.nextHandle) : (s.alloc n).2.getVal (s.alloc n).1 = n := by
  have hne : s.nextHandle ≠ 0 := Nat.one_le_iff_ne_zero.mp h1
  simp [FHEState.alloc, FHEState.getVal, hne]

theorem alloc_nextHandle (s : FHEState) (n : Nat) :
    (s.alloc n).2.nextHandle = s.nextHandle + 1 := rfl

theorem alloc_issued (s : FHEState) (n : Nat) :
    (s.alloc n).2.issued = s.issued := rfl

theorem alloc_nextRequestId (s : FHEState) (n : Nat) :
    (s.alloc n).2.nextRequestId = s.nextRequestId := rfl

theorem allow_getVal (s : FHEState) (h : Nat) (a : Nat) :
    (s.allow h a).getVal = s.getVal := rfl

theorem allowThis_getVal (s : FHEState) (h : Nat) :
    (s.allowThis h).getVal = s.getVal := rfl

theorem allow_val (s : FHEState) (h a : Nat) : (s.allow h a).val = s.val :=
  rfl

theorem allow_nextHandle (s : FHEState) (h a : Nat) :
    (s.allow h a).nextHandle = s.nextHandle := rfl

theorem allowThis_val (s : FHEState) (h : Nat) :
    (s.allowThis h).val = s.val := rfl

theorem allowThis_nextHandle (s : FHEState) (h : Nat) :
    (s.allowThis h).nextHandle = s.nextHandle := rfl

theorem requestDecryption_getVal (s : FHEState) (cts : List Nat) :
    (s.requestDecryption cts).2.getVal = s.getVal := rfl

theorem requestDecryption_issued_self (s : FHEState) (cts : List Nat) :
    (s.requestDecryption cts).2.issued (s.requestDecryption cts).1 =
      some cts := by
  simp [FHEState.requestDecryption]

theorem requestDecryption_issued_of_ne (s : FHEState) (cts : List Nat)
    (r : Nat) (hr : r ≠ s.nextRequestId) :
    (s.requestDecryption cts).2.issued r = s.issued r := by
  simp [FHEState.requestDecryption, hr]

theorem fromExternal_fst (s : FHEState) (t : Nat) :
    (s.fromExternal t).1 = s.nextHandle := rfl

theorem fromExternal_nextHandle (s : FHEState) (t : Nat) :
    (s.fromExternal t).2.nextHandle = s.nextHandle + 1 := rfl

theorem fromExternal_getVal_of_lt (s : FHEState) (t h : Nat)
    (hh : h < s.nextHandle) :
    (s.fromExternal t).2.getVal h = s.getVal h :=
  alloc_getVal_of_lt s (t % U128) h hh

theorem fromExternal_getVal_self (s : FHEState) (t : Nat)
    (h1 : 1 ≤ s.nextHandle) :
    (s.fromExternal t).2.getVal (s.fromExternal t).1 = t % U128 :=
  alloc_getVal_self s (t % U128) h1

theorem asEaddress_nextHandle (s : FHEState) (a : Nat) :
    (s.asEaddress a).2.nextHandle = s.nextHandle + 1 := rfl

theorem asEaddress_getVal_of_lt (s : FHEState) (a h : Nat)
    (hh : h < s.nextHandle) :
    (s.asEaddress a).2.getVal h = s.getVal h :=
  alloc_getVal_of_lt s (a % 2 ^ 160) h hh

theorem add_fst (s : FHEState) (a b : Nat) :
    (s.add a b).1 = s.nextHandle := rfl

theorem add_nextHandle (s : FHEState) (a b : Nat) :
    (s.add a b).2.nextHandle = s.nextHandle + 1 := rfl

theorem add_getVal_of_lt (s : FHEState) (a b h : Nat)
    (hh : h < s.nextHandle) :
    (s.add a b).2.getVal h = s.getVal h :=
  alloc_getVal_of_lt s _ h hh

theorem add_getVal_self (s : FHEState) (a b : Nat)
    (h1 : 1 ≤ s.nextHandle) :
    (s.add a b).2.getVal (s.add a b).1
      = (s.getVal a + s.getVal b) % U128 :=
  alloc_getVal_self s _ h1

/-! ### Effect lemmas for the external entry points -/

theorem startCampaign_ok (c : State) (s t : Nat) (c' : State)
    (evs : List Event) (h1 : 1 ≤ c.fhe.nextHandle)
    (h : startCampaign c s t = .ok (c', evs)) :
    c'.fhe.getVal c'.totalDonations = 0 ∧
    1 ≤ c'.fhe.nextHandle ∧
    c'.totalDonations < c'.fhe.nextHandle ∧
    c'.charityOwner = s ∧
    c'.campaignActive = true ∧
    c'.donorBalances = c.donorBalances ∧
    (∀ h2, h2 < c.fhe.nextHandle → c'.fhe.getVal h2 = c.fhe.getVal h2) := by
  unfold startCampaign at h
  split at h
  case isTrue => simp at h
  case isFalse =>
    simp only [Except.ok.injEq, Prod.mk.injEq] at h
    obtain ⟨hc, -⟩ := h
    subst hc
    refine ⟨?_, ?_, ?_, rfl, rfl, rfl, ?_⟩
    · simp only [allow_getVal, allowThis_getVal,
        allow_val, allow_nextHandle, allowThis_val, allowThis_nextHandle, FHEState.asEuint128,
        FHEState.fromExternal, FHEState.alloc, FHEState.getVal,
        Nat.zero_mod]
      split_ifs <;> rfl
    · simp only [allow_getVal, allowThis_getVal,
        allow_val, allow_nextHandle, allowThis_val, allowThis_nextHandle, FHEState.asEuint128,
        FHEState.fromExternal, FHEState.alloc]
      omega
    · simp only [allow_getVal, allowThis_getVal,
        allow_val, allow_nextHandle, allowThis_val, allowThis_nextHandle, FHEState.asEuint128,
        FHEState.fromExternal, FHEState.alloc]
      omega
    · intro h2 hlt
      simp only [allow_getVal, allowThis_getVal,
        allow_val, allow_nextHandle, allowThis_val, allowThis_nextHandle, FHEState.asEuint128,
        FHEState.fromExternal, FHEState.alloc, FHEState.getVal]
      split_ifs <;> first | rfl | omega

theorem endCampaign_ok (c : State) (s : Nat) (c' : State)
    (evs : List Event) (h : endCampaign c s = .ok (c', evs)) :
    c'.fhe.issued c.fhe.nextRequestId = some [c.totalDonations] ∧
    c'.fhe.getVal = c.fhe.getVal ∧
    c'.fhe.nextHandle = c.fhe.nextHandle ∧
    c'.campaignActive = false ∧
    c'.donorBalances = c.donorBalances ∧
    c'.totalDonations = c.totalDonations ∧
    c'.targetAmount = c.targetAmount ∧
    c'.fhe.nextRequestId = c.fhe.nextRequestId + 1 ∧
    (∀ r, r ≠ c.fhe.nextRequestId → c'.fhe.issued r = c.fhe.issued r) := by
  unfold endCampaign at h
  split at h
  case isFalse => simp at h
  case isTrue =>
    split at h
    case isFalse => simp at h
    case isTrue =>
      simp only [Except.ok.injEq, Prod.mk.injEq] at h
      obtain ⟨hc, -⟩ := h
      subst hc
      exact ⟨requestDecryption_issued_self c.fhe [c.totalDonations], rfl, rfl,
        rfl, rfl, rfl, rfl, rfl,
        fun r hr => requestDecryption_issued_of_ne c.fhe _ r hr⟩

theorem requestProgress_ok (c : State) (c' : State) (rid : Nat)
    (h : requestProgress c = .ok (c', rid)) :
    rid = c.fhe.nextRequestId ∧
    c'.fhe.issued c.fhe.nextRequestId =
      some [c.totalDonations, c.targetAmount] ∧
    c'.fhe.getVal = c.fhe.getVal ∧
    c'.fhe.nextHandle = c.fhe.nextHandle ∧
    c'.fhe.nextRequestId = c.fhe.nextRequestId + 1 ∧
    c'.totalDonations = c.totalDonations ∧
    c'.targetAmount = c.targetAmount ∧
    c'.charityOwner = c.charityOwner ∧
    (∀ r, r ≠ c.fhe.nextRequestId → c'.fhe.issued r = c.fhe.issued r) := by
  unfold requestProgress at h
  split at h
  case isFalse => simp at h
  case isTrue =>
    simp only [Except.ok.injEq, Prod.mk.injEq] at h
    obtain ⟨hc, hr⟩ := h
    subst hc
    subst hr
    exact ⟨rfl, requestDecryption_issued_self c.fhe _, rfl, rfl, rfl, rfl,
      rfl, rfl, fun r hr => requestDecryption_issued_of_ne c.fhe _ r hr⟩

theorem donate_ok (c : State) (snd v a : Nat) (c' : State)
    (evs : List Event) (h1 : 1 ≤ c.fhe.nextHandle)
    (htd : c.totalDonations < c.fhe.nextHandle)
    (h : donate c snd v a = .ok (c', evs)) :
    c'.fhe.getVal c'.totalDonations
      = (c.fhe.getVal c.totalDonations + a % U128) % U128 ∧
    1 ≤ c'.fhe.nextHandle ∧
    c'.totalDonations < c'.fhe.nextHandle ∧
    c'.fhe.issued = c.fhe.issued ∧
    c'.fhe.nextRequestId = c.fhe.nextRequestId ∧
    c'.charityOwner = c.charityOwner ∧
    c'.targetAmount = c.targetAmount ∧
    c.fhe.nextHandle ≤ c'.fhe.nextHandle ∧
    (∀ h2, h2 < c.fhe.nextHandle → c'.fhe.getVal h2 = c.fhe.getVal h2) := by
  unfold donate at h
  split at h
  case isFalse => simp at h
  case isTrue =>
    split at h
    case isFalse => simp at h
    case isTrue =>
      split at h
      case isFalse => simp at h
      case isTrue =>
        simp only [Except.ok.injEq, Prod.mk.injEq] at h
        obtain ⟨hc, -⟩ := h
        subst hc
        refine ⟨?_, ?_, ?_, rfl, rfl, rfl, rfl, ?_, ?_⟩
        · simp only [allow_getVal, allowThis_getVal]
          rw [add_getVal_of_lt _ _ _ _
                (by rw [add_fst, add_nextHandle]; exact Nat.lt_succ_self _),
            add_getVal_self _ _ _
              (by rw [asEaddress_nextHandle, fromExternal_nextHandle]
                  exact Nat.le_add_left 1 _),
            asEaddress_getVal_of_lt _ _ _
              (by rw [fromExternal_nextHandle]; exact Nat.lt_succ_of_lt htd),
            fromExternal_getVal_of_lt _ _ _ htd,
            asEaddress_getVal_of_lt _ _ _
              (by rw [fromExternal_fst, fromExternal_nextHandle]
                  exact Nat.lt_succ_self _),
            fromExternal_getVal_self _ _ h1]
        · simp only [allow_nextHandle, allowThis_nextHandle, add_nextHandle,
            asEaddress_nextHandle, fromExternal_nextHandle]
          exact Nat.le_add_left 1 _
        · simp only [allow_nextHandle, allowThis_nextHandle, add_nextHandle,
            add_fst, asEaddress_nextHandle, fromExternal_nextHandle]
          omega
        · simp only [allow_nextHandle, allowThis_nextHandle, add_nextHandle,
            asEaddress_nextHandle, fromExternal_nextHandle]
          omega
        · intro h2 hlt
          simp only [allow_getVal, allowThis_getVal]
          rw [add_getVal_of_lt _ _ _ _
                (by rw [add_nextHandle, asEaddress_nextHandle,
                      fromExternal_nextHandle]
                    omega),
            add_getVal_of_lt _ _ _ _
              (by rw [asEaddress_nextHandle, fromExternal_nextHandle]; omega),
            asEaddress_getVal_of_lt _ _ _
              (by rw [fromExternal_nextHandle]; omega),
            fromExternal_getVal_of_lt _ _ _ hlt]

theorem donateSeq_total (ds : List DonationCall) (c c' : State)
    (h1 : 1 ≤ c.fhe.nextHandle) (htd : c.totalDonations < c.fhe.nextHandle)
    (hv : c.fhe.getVal c.totalDonations < U128)
    (hA : ∀ d ∈ ds, d.amountPlain < U128)
    (h : donateSeq c ds = .ok c') :
    c'.fhe.getVal c'.totalDonations
      = (c.fhe.getVal c.totalDonations + sumAmounts ds) % U128 := by
  induction ds generalizing c with
  | nil =>
    simp only [donateSeq, Except.ok.injEq] at h
    subst h
    simp [sumAmounts, Nat.mod_eq_of_lt hv]
  | cons d ds ih =>
    simp only [donateSeq] at h
    split at h
    case h_2 => simp at h
    case h_1 q hq =>
      have hd := donate_ok c d.sender d.msgValue d.amountPlain q.1 q.2 h1
        htd hq
      have haU : d.amountPlain < U128 := hA d (List.mem_cons_self d ds)
      have hrest : ∀ e ∈ ds, e.amountPlain < U128 :=
        fun e he => hA e (List.mem_cons_of_mem d he)
      have hv' : q.1.fhe.getVal q.1.totalDonations < U128 := by
        rw [hd.1]
        exact Nat.mod_lt _ (by norm_num [U128])
      have hq' := ih q.1 hd.2.1 hd.2.2.1 hv' hrest h
      rw [hq', hd.1, Nat.mod_eq_of_lt haU]
      simp only [sumAmounts, List.map_cons, List.sum_cons]
      rw [Nat.mod_add_mod, Nat.add_assoc]

/-! ### Theorems about the claims -/

/-- C8: `donate` fails with the lifecycle error "Campaign not active"
whenever no campaign is active, fails with "Donation > 0" when the paid
native amount is zero and with "Amount too large" when it exceeds
`type(uint128).max = 2 ^ 128 - 1`.  An `.error` result models an EVM
revert, so no state is mutated in any failure case. -/
theorem C8_donate_guards (c : State) (s : Nat) (v a : Nat) :
    (c.campaignActive = false →
      donate c s v a = .error "Campaign not active") ∧
    (c.campaignActive = true → v = 0 →
      donate c s v a = .error "Donation > 0") ∧
    (c.campaignActive = true → U128 - 1 < v →
      donate c s v a = .error "Amount too large") := by
  refine ⟨fun hA => ?_, fun hA hv => ?_, fun hA hv => ?_⟩
  · simp [donate, hA]
  · simp [donate, hA, hv]
  · have h0 : 0 < v := Nat.lt_of_le_of_lt (Nat.zero_le _) hv
    simp [donate, hA, h0, Nat.not_le.mpr hv]

/-- C1 counterexample: after a successful `endCampaign`, before any
callback has run (the pending withdrawal entry and the issued decryption
request are both still outstanding), `campaignActive` is already `false` —
the claim says the campaign is still in an active state there. -/
theorem C1_inactive_before_callback_counterexample :
    callOk (endCampaign exStart 1) = true ∧
    rsEnd.campaignActive = false ∧
    rsEnd.pendingWithdrawals 1 = 1 ∧
    (rsEnd.fhe.issued 1).isSome = true := by decide

/-- C1 (amended): `campaignActive` is cleared by the successful
`endCampaign` call itself, so the withdrawal-pending window between
`endCampaign` and `callbackEndCampaign` already has `campaignActive =
false` (the pending withdrawal is recorded under the fresh request id),
and the end-campaign callback leaves the flag unchanged rather than being
the point where it becomes false. -/
theorem C1_active_window_ends_at_endCampaign
    (c c1 c2 : State) (s : Nat) (rid : Nat) (cts : List Nat)
    (evs1 evs2 : List Event)
    (hEnd : endCampaign c s = .ok (c1, evs1))
    (hCb : callbackEndCampaign c1 rid cts = .ok (c2, evs2)) :
    c1.campaignActive = false ∧
    c1.pendingWithdrawals c.fhe.nextRequestId = s ∧
    c2.campaignActive = c1.campaignActive := by
  unfold endCampaign at hEnd
  split at hEnd
  case isFalse => simp at hEnd
  split at hEnd
  case isFalse => simp at hEnd
  case isTrue =>
    simp only [Except.ok.injEq, Prod.mk.injEq] at hEnd
    obtain ⟨hc1, -⟩ := hEnd
    unfold callbackEndCampaign at hCb
    split at hCb
    case isFalse => simp at hCb
    case isTrue =>
      split at hCb
      case h_2 => simp at hCb
      case h_1 x =>
        dsimp only [] at hCb
        split at hCb
        case isFalse => simp at hCb
        case isTrue =>
          split at hCb
          case isFalse => simp at hCb
          case isTrue =>
            simp only [Except.ok.injEq, Prod.mk.injEq] at hCb
            obtain ⟨hc2, -⟩ := hCb
            subst hc1 hc2
            simp [FHEState.requestDecryption]

/-- C1 witness: a concrete run deploy → start → donate → end → callback in
which the amended statement is instantiated. -/
theorem C1_active_window_ends_at_endCampaign_witness :
    exEnd.campaignActive = false ∧
    exEnd.pendingWithdrawals exDon.fhe.nextRequestId = 1 ∧
    (okState (callbackEndCampaign exEnd 1 [500])).campaignActive =
      exEnd.campaignActive :=
  C1_active_window_ends_at_endCampaign exDon exEnd
    (okState (callbackEndCampaign exEnd 1 [500])) 1 1 [500]
    (okEvents (endCampaign exDon 1))
    (okEvents (callbackEndCampaign exEnd 1 [500])) rfl rfl

/-- C10: a successful `updateTarget` changes only the stored target handle
and its access grants: the active flag, the owner, the total handle, every
donor balance handle, the encrypted donor addresses, the pending
withdrawals table, the native balance, the issued decryption requests and
the plaintexts of all previously allocated handles are unchanged; the new
target handle holds the supplied plaintext (mod `2 ^ 128`) and is granted
to the contract and the owner. -/
theorem C10_updateTarget_frame (c c' : State) (s : Nat) (t : Nat)
    (evs : List Event) (hWf : 1 ≤ c.fhe.nextHandle)
    (h : updateTarget c s t = .ok (c', evs)) :
    c'.campaignActive = c.campaignActive ∧
    c'.charityOwner = c.charityOwner ∧
    c'.totalDonations = c.totalDonations ∧
    c'.donorBalances = c.donorBalances ∧
    c'.encryptedDonorAddresses = c.encryptedDonorAddresses ∧
    c'.pendingWithdrawals = c.pendingWithdrawals ∧
    c'.balance = c.balance ∧
    c'.fhe.issued = c.fhe.issued ∧
    c'.fhe.nextRequestId = c.fhe.nextRequestId ∧
    (∀ h2, h2 < c.fhe.nextHandle → c'.fhe.getVal h2 = c.fhe.getVal h2) ∧
    c'.targetAmount = c.fhe.nextHandle ∧
    c'.fhe.getVal c'.targetAmount = t % U128 ∧
    c'.fhe.aclThis c'.targetAmount = true ∧
    c'.fhe.acl c'.targetAmount c.charityOwner = true ∧
    evs = [Event.TargetUpdated c.fhe.nextHandle] := by
  unfold updateTarget at h
  split at h
  case isFalse => simp at h
  split at h
  case isFalse => simp at h
  case isTrue =>
    simp only [Except.ok.injEq, Prod.mk.injEq] at h
    obtain ⟨hc, hevs⟩ := h
    subst hc
    subst hevs
    refine ⟨rfl, rfl, rfl, rfl, rfl, rfl, rfl, rfl, rfl, ?_, rfl, ?_, ?_, ?_, rfl⟩
    · intro h2 hlt
      simp only [allow_getVal, allowThis_getVal,
        allow_val, allow_nextHandle, allowThis_val, allowThis_nextHandle, FHEState.fromExternal]
      exact alloc_getVal_of_lt c.fhe (t % U128) h2 hlt
    · simp only [allow_getVal, allowThis_getVal,
        allow_val, allow_nextHandle, allowThis_val, allowThis_nextHandle, FHEState.fromExternal]
      exact alloc_getVal_self c.fhe (t % U128) hWf
    · simp [FHEState.allow, FHEState.allowThis]
    · simp [FHEState.allow, FHEState.allowThis]

/-- C10 witness: `updateTarget` on the concrete post-donation state. -/
theorem C10_updateTarget_frame_witness :
    (okState (updateTarget exDon 1 999)).campaignActive =
      exDon.campaignActive ∧
    (okState (updateTarget exDon 1 999)).charityOwner = exDon.charityOwner ∧
    (okState (updateTarget exDon 1 999)).totalDonations =
      exDon.totalDonations ∧
    (okState (updateTarget exDon 1 999)).balance = exDon.balance ∧
    (okState (updateTarget exDon 1 999)).fhe.getVal
      (okState (updateTarget exDon 1 999)).targetAmount = 999 % U128 := by
  have h := C10_updateTarget_frame exDon (okState (updateTarget exDon 1 999))
    1 999 (okEvents (updateTarget exDon 1 999)) (by decide) rfl
  exact ⟨h.1, h.2.1, h.2.2.1, h.2.2.2.2.2.2.1, h.2.2.2.2.2.2.2.2.2.2.2.1⟩

/-- C6: `startCampaign` fails with the lifecycle error "Campaign active"
when a campaign is already active; otherwise it records the caller as
owner, activates the campaign, stores the supplied encrypted target,
resets the encrypted total to zero, and grants the contract itself and the
owner decryption permission on both the total and the target handles. -/
theorem C6_startCampaign_correct (c : State) (s : Nat) (t : Nat) :
    (c.campaignActive = true →
      startCampaign c s t = .error "Campaign active") ∧
    (c.campaignActive = false → 1 ≤ c.fhe.nextHandle → t < U128 →
      callOk (startCampaign c s t) = true ∧
      (okState (startCampaign c s t)).charityOwner = s ∧
      (okState (startCampaign c s t)).campaignActive = true ∧
      (okState (startCampaign c s t)).fhe.getVal
        (okState (startCampaign c s t)).targetAmount = t ∧
      (okState (startCampaign c s t)).fhe.getVal
        (okState (startCampaign c s t)).totalDonations = 0 ∧
      (okState (startCampaign c s t)).fhe.aclThis
        (okState (startCampaign c s t)).targetAmount = true ∧
      (okState (startCampaign c s t)).fhe.acl
        (okState (startCampaign c s t)).targetAmount s = true ∧
      (okState (startCampaign c s t)).fhe.aclThis
        (okState (startCampaign c s t)).totalDonations = true ∧
      (okState (startCampaign c s t)).fhe.acl
        (okState (startCampaign c s t)).totalDonations s = true) := by
  constructor
  · intro hA
    simp [startCampaign, hA]
  · intro hA h1 ht
    have hne : c.fhe.nextHandle ≠ 0 := Nat.one_le_iff_ne_zero.mp h1
    have hne1 : c.fhe.nextHandle ≠ c.fhe.nextHandle + 1 :=
      Nat.ne_of_lt (Nat.lt_succ_self _)
    simp only [startCampaign, hA, Bool.false_eq_true, if_false, okState,
      callOk, FHEState.fromExternal, FHEState.asEuint128, FHEState.alloc,
      FHEState.allow, FHEState.allowThis, FHEState.getVal]
    simp [hne, hne1, Nat.mod_eq_of_lt ht]

/-- C6 witness: the lifecycle failure on an active campaign, and the full
success postcondition at deployment (owner `1`, target `1000`). -/
theorem C6_startCampaign_correct_witness :
    startCampaign exStart 5 7 = .error "Campaign active" ∧
    (okState (startCampaign deploy 1 1000)).charityOwner = 1 ∧
    (okState (startCampaign deploy 1 1000)).campaignActive = true ∧
    (okState (startCampaign deploy 1 1000)).fhe.getVal
      (okState (startCampaign deploy 1 1000)).targetAmount = 1000 ∧
    (okState (startCampaign deploy 1 1000)).fhe.getVal
      (okState (startCampaign deploy 1 1000)).totalDonations = 0 ∧
    (okState (startCampaign deploy 1 1000)).fhe.aclThis
      (okState (startCampaign deploy 1 1000)).targetAmount = true ∧
    (okState (startCampaign deploy 1 1000)).fhe.acl
      (okState (startCampaign deploy 1 1000)).targetAmount 1 = true :=
  have h := (C6_startCampaign_correct deploy 1 1000).2 rfl (by decide)
    (by decide)
  ⟨(C6_startCampaign_correct exStart 5 7).1 (by decide),
   h.2.1, h.2.2.1, h.2.2.2.1, h.2.2.2.2.1, h.2.2.2.2.2.1, h.2.2.2.2.2.2.1⟩

/-- C4 counterexample: the owner ends the campaign (request id `1`) and
starts a new campaign before the callback arrives; the verified
end-campaign callback then succeeds, transfers, emits both events — and
the resulting state is still active, contradicting "the resulting state is
inactive". -/
theorem C4_active_after_callback_counterexample :
    rsRestart.campaignActive = true ∧
    rsRestart.fhe.checkSignatures 1 [0] = true ∧
    callOk (callbackEndCampaign rsRestart 1 [0]) = true ∧
    okEvents (callbackEndCampaign rsRestart 1 [0]) =
      [Event.Withdrawn 1 0, Event.CampaignEnded 1 0] ∧
    (okState (callbackEndCampaign rsRestart 1 [0])).campaignActive =
      true := by
  decide

/-- C4 (amended): on a verified end-campaign callback whose pending
withdrawer matches the current owner, if the held balance is below the
decrypted total the call reverts with "Insufficient balance" and transfers
nothing (an `.error` models a full revert); otherwise exactly the
decrypted total — never more than the balance — is transferred to the
owner, `Withdrawn` then `CampaignEnded` are emitted in that order, and the
`campaignActive` flag is left unchanged by the callback (it is `false` in
the normal flow because `endCampaign` already cleared it, but remains
`true` if a new campaign was started before the callback). -/
theorem C4_withdrawal_balance_guard (c : State) (rid total : Nat)
    (hSig : c.fhe.checkSignatures rid [total] = true)
    (hCorr : c.pendingWithdrawals rid = c.charityOwner) :
    (c.balance < total →
      callbackEndCampaign c rid [total] = .error "Insufficient balance") ∧
    (total ≤ c.balance →
      callbackEndCampaign c rid [total] =
        .ok ({ c with
               pendingWithdrawals := fun r =>
                 if r = rid then 0 else c.pendingWithdrawals r
               balance := c.balance - total },
             [Event.Withdrawn c.charityOwner total,
              Event.CampaignEnded c.charityOwner total])) := by
  constructor
  · intro hlt
    simp [callbackEndCampaign, hSig, hCorr, Nat.not_le.mpr hlt]
  · intro hle
    simp [callbackEndCampaign, hSig, hCorr, hle]

/-- C4 witness: the underfunded trace reverts with "Insufficient balance";
the fully funded trace pays out `500` and emits both events in order. -/
theorem C4_withdrawal_balance_guard_witness :
    callbackEndCampaign exEndLow 1 [500] = .error "Insufficient balance" ∧
    callbackEndCampaign exEnd 1 [500] =
      .ok ({ exEnd with
             pendingWithdrawals := fun r =>
               if r = 1 then 0 else exEnd.pendingWithdrawals r
             balance := exEnd.balance - 500 },
           [Event.Withdrawn exEnd.charityOwner 500,
            Event.CampaignEnded exEnd.charityOwner 500]) :=
  ⟨(C4_withdrawal_balance_guard exEndLow 1 500 (by decide) (by decide)).1
     (by decide),
   (C4_withdrawal_balance_guard exEnd 1 500 (by decide) (by decide)).2
     (by decide)⟩

/-- C5 counterexample: a reachable progress payload with
`total = 2 ^ 122`, `target = 200` (both 128-bit values) makes the checked
`uint128` multiplication `total * 100` overflow, so the callback reverts
with an arithmetic panic instead of succeeding with
`floor(total * 100 / target)`. -/
theorem C5_percentage_overflow_counterexample :
    ovReq.fhe.checkSignatures 1 [2 ^ 122, 200] = true ∧
    callOk (callbackProgress ovReq 1 [2 ^ 122, 200]) = false ∧
    errMsg (callbackProgress ovReq 1 [2 ^ 122, 200]) =
      "panic: arithmetic overflow" := by
  decide

/-- C5 (amended): for a verified progress payload `(total, target)`, the
callback emits percentage `0` when `target = 0` (succeeding for any
`total`, since the ternary skips the multiplication), emits exactly
`floor(total * 100 / target)` with no cap when `target > 0` and
`total * 100 < 2 ^ 128`, and reverts with an arithmetic-overflow panic
when `target > 0` and `total * 100 ≥ 2 ^ 128` (checked `uint128`
multiplication). -/
theorem C5_progress_percentage_formula (c : State) (rid total target : Nat)
    (hSig : c.fhe.checkSignatures rid [total, target] = true) :
    (target = 0 →
      callbackProgress c rid [total, target] =
        .ok (c, [Event.CampaignProgress total target 0])) ∧
    (0 < target → total * 100 < U128 →
      callbackProgress c rid [total, target] =
        .ok (c,
          [Event.CampaignProgress total target (total * 100 / target)])) ∧
    (0 < target → U128 ≤ total * 100 →
      callbackProgress c rid [total, target] =
        .error "panic: arithmetic overflow") := by
  refine ⟨fun h0 => ?_, fun hpos hlt => ?_, fun hpos hge => ?_⟩
  · subst h0
    simp [callbackProgress, hSig]
  · simp [callbackProgress, hSig, hpos, hlt]
  · simp [callbackProgress, hSig, hpos, Nat.not_lt.mpr hge]

/-- C5 witness: the spec's own example `total = 50, target = 200` yields
percentage `25` on the reachable progress-request state. -/
theorem C5_progress_percentage_formula_witness :
    callbackProgress prReq 1 [50, 200] =
      .ok (prReq, [Event.CampaignProgress 50 200 25]) :=
  (C5_progress_percentage_formula prReq 1 50 200 (by decide)).2.1
    (by decide) (by decide)

/-- C3 counterexample: `callbackProgress` performs no request-id
consumption: the same verified payload for request `1` is accepted twice,
emitting `CampaignProgress` again, instead of the second call failing with
a request-correlation error. -/
theorem C3_progress_replay_counterexample :
    callOk (callbackProgress prReq 1 [50, 200]) = true ∧
    callOk (callbackProgress prOnce 1 [50, 200]) = true ∧
    okEvents (callbackProgress prOnce 1 [50, 200]) =
      [Event.CampaignProgress 50 200 25] := by
  decide

/-- C3 (amended): a callback for a request id that was never issued fails
signature verification in both callbacks and mutates nothing; a successful
`callbackEndCampaign` consumes its pending entry, and any replay of the
same request id against it fails (given a nonzero owner), so end-campaign
requests are honored at most once — but `callbackProgress` keeps no
pending record and a verified progress payload can be replayed. -/
theorem C3_end_callback_single_consumption
    (c c2 : State) (rid : Nat) (cts cts2 : List Nat) (evs : List Event)
    (d : State) (rid3 : Nat) (cts3 : List Nat)
    (hOwner : c.charityOwner ≠ 0)
    (hOk : callbackEndCampaign c rid cts = .ok (c2, evs))
    (hNone : d.fhe.issued rid3 = none) :
    c.pendingWithdrawals rid = c.charityOwner ∧
    c2.pendingWithdrawals rid = 0 ∧
    c2.charityOwner = c.charityOwner ∧
    c2.fhe.issued = c.fhe.issued ∧
    callOk (callbackEndCampaign c2 rid cts2) = false ∧
    callbackEndCampaign d rid3 cts3 =
      .error "KMS signature verification failed" ∧
    callbackProgress d rid3 cts3 =
      .error "KMS signature verification failed" := by
  unfold callbackEndCampaign at hOk
  split at hOk
  case isFalse => simp at hOk
  case isTrue =>
    split at hOk
    case h_2 => simp at hOk
    case h_1 x =>
      dsimp only [] at hOk
      split at hOk
      case isFalse => simp at hOk
      case isTrue hW =>
        split at hOk
        case isFalse => simp at hOk
        case isTrue =>
          simp only [Except.ok.injEq, Prod.mk.injEq] at hOk
          obtain ⟨hc2, -⟩ := hOk
          subst hc2
          refine ⟨hW, by simp, rfl, rfl, ?_, ?_, ?_⟩
          · unfold callbackEndCampaign
            split
            case isFalse => rfl
            case isTrue =>
              split
              case h_2 => rfl
              case h_1 y =>
                dsimp only []
                rw [if_pos rfl, if_neg]
                · rfl
                · simpa using fun h => hOwner h.symm
          · simp [callbackEndCampaign, FHEState.checkSignatures, hNone]
          · simp [callbackProgress, FHEState.checkSignatures, hNone]

/-- C3 witness: the concrete end-campaign callback for request `1` is
consumed once, its replay fails, and a never-issued request id `5` is
rejected by both callbacks. -/
theorem C3_end_callback_single_consumption_witness :
    exEnd.pendingWithdrawals 1 = exEnd.charityOwner ∧
    (okState (callbackEndCampaign exEnd 1 [500])).pendingWithdrawals 1 =
      0 ∧
    (okState (callbackEndCampaign exEnd 1 [500])).charityOwner =
      exEnd.charityOwner ∧
    (okState (callbackEndCampaign exEnd 1 [500])).fhe.issued =
      exEnd.fhe.issued ∧
    callOk (callbackEndCampaign
      (okState (callbackEndCampaign exEnd 1 [500])) 1 [500]) = false ∧
    callbackEndCampaign deploy 5 [1, 2] =
      .error "KMS signature verification failed" ∧
    callbackProgress deploy 5 [1, 2] =
      .error "KMS signature verification failed" :=
  C3_end_callback_single_consumption exEnd
    (okState (callbackEndCampaign exEnd 1 [500])) 1 [500] [500]
    (okEvents (callbackEndCampaign exEnd 1 [500])) deploy 5 [1, 2]
    (by decide) rfl rfl

/-- C8 witness: the three guard failures at concrete reachable states. -/
theorem C8_donate_guards_witness :
    donate deploy 2 5 5 = .error "Campaign not active" ∧
    donate exStart 2 0 5 = .error "Donation > 0" ∧
    donate exStart 2 (2 ^ 128) 5 = .error "Amount too large" :=
  ⟨(C8_donate_guards deploy 2 5 5).1 (by decide),
   (C8_donate_guards exStart 2 0 5).2.1 (by decide) rfl,
   (C8_donate_guards exStart 2 (2 ^ 128) 5).2.2 (by decide) (by decide)⟩

/-- C2 counterexample: two successful donations with plaintext amounts
`2 ^ 127` each (both within the 128-bit range) wrap the homomorphic total
to `0`, so the decrypted total delivered to the end-campaign callback is
`0` and not `2 ^ 127 + 2 ^ 127`. -/
theorem C2_overflow_counterexample :
    callOk wrapSeq = true ∧
    callOk (endCampaign wrapS 1) = true ∧
    wrapEnd.fhe.checkSignatures 1 [0] = true ∧
    wrapEnd.fhe.checkSignatures 1 [2 ^ 127 + 2 ^ 127] = false := by
  decide

/-- C2 (amended): for every sequence of successful `donate` calls with
plaintext amounts `a1, …, an` (each below `2 ^ 128`) made during one
campaign, the end-campaign request decrypts the running-total handle,
whose plaintext is `(a1 + … + an) mod 2 ^ 128`; it equals the exact sum
precisely when the sum itself is below `2 ^ 128`. -/
theorem C2_decrypted_total_is_sum_mod (c0 c1 c2 c3 : State) (s t : Nat)
    (ds : List DonationCall) (evs1 evs3 : List Event)
    (hWf : 1 ≤ c0.fhe.nextHandle)
    (hStart : startCampaign c0 s t = .ok (c1, evs1))
    (hAmts : ∀ d ∈ ds, d.amountPlain < U128)
    (hDs : donateSeq c1 ds = .ok c2)
    (hEnd : endCampaign c2 s = .ok (c3, evs3)) :
    c3.fhe.issued c2.fhe.nextRequestId = some [c2.totalDonations] ∧
    c3.fhe.getVal c2.totalDonations = sumAmounts ds % U128 ∧
    c3.fhe.checkSignatures c2.fhe.nextRequestId [sumAmounts ds % U128]
      = true ∧
    (sumAmounts ds < U128 →
      c3.fhe.checkSignatures c2.fhe.nextRequestId [sumAmounts ds]
        = true) := by
  have hS := startCampaign_ok c0 s t c1 evs1 hWf hStart
  have hU : c1.fhe.getVal c1.totalDonations < U128 := by
    rw [hS.1]
    norm_num [U128]
  have hTot := donateSeq_total ds c1 c2 hS.2.1 hS.2.2.1 hU hAmts hDs
  rw [hS.1, Nat.zero_add] at hTot
  have hE := endCampaign_ok c2 s c3 evs3 hEnd
  have hGet : c3.fhe.getVal c2.totalDonations = sumAmounts ds % U128 := by
    rw [hE.2.1]
    exact hTot
  refine ⟨hE.1, hGet, ?_, ?_⟩
  · simp [FHEState.checkSignatures, hE.1, hGet]
  · intro hlt
    rw [← Nat.mod_eq_of_lt hlt]
    simp [FHEState.checkSignatures, hE.1, hGet]

/-- C2 witness: one donation of `500`; the end-campaign payload accepted
by the KMS verification is exactly `[500]`. -/
theorem C2_decrypted_total_is_sum_mod_witness :
    exSeqEnd.fhe.issued exSeqS.fhe.nextRequestId =
      some [exSeqS.totalDonations] ∧
    exSeqEnd.fhe.getVal exSeqS.totalDonations =
      sumAmounts [⟨2, 500, 500⟩] % U128 ∧
    exSeqEnd.fhe.checkSignatures exSeqS.fhe.nextRequestId
      [sumAmounts [⟨2, 500, 500⟩] % U128] = true ∧
    exSeqEnd.fhe.checkSignatures exSeqS.fhe.nextRequestId
      [sumAmounts [⟨2, 500, 500⟩]] = true :=
  have h := C2_decrypted_total_is_sum_mod deploy exStart exSeqS exSeqEnd
    1 1000 [⟨2, 500, 500⟩] (okEvents (startCampaign deploy 1 1000))
    (okEvents (endCampaign exSeqS 1)) (by decide) rfl (by decide) rfl rfl
  ⟨h.1, h.2.1, h.2.2.1, h.2.2.2 (by decide)⟩

/-- C7 counterexample: donor `2` donates `100` in a first campaign; after
`endCampaign` and a second `startCampaign`, a donation of `50` leaves the
donor's recorded balance at plaintext `150`, not `50` — the second
`startCampaign` did not reset the donor ledger slot. -/
theorem C7_no_reset_counterexample :
    callOk (startCampaign xcEnd 1 555) = true ∧
    callOk (donate xcStart2 2 50 50) = true ∧
    xcDon2.fhe.getVal (balanceOf xcDon2 2) = 150 ∧
    xcDon2.fhe.getVal (balanceOf xcDon2 2) ≠ 50 := by
  decide

/-- C7 (amended): donor balances are never deleted — after `endCampaign`
each balance handle and its plaintext are unchanged and remain queryable
through `balanceOf` — but a subsequent `startCampaign` resets only the
encrypted total to zero, not the donor ledger: donor balances persist (and
accumulate) across campaigns. -/
theorem C7_donor_balances_persist (c c1 c2 : State) (s a t : Nat)
    (evs1 evs2 : List Event)
    (hWf : 1 ≤ c.fhe.nextHandle)
    (hB : c.donorBalances a < c.fhe.nextHandle)
    (hEnd : endCampaign c s = .ok (c1, evs1))
    (hStart : startCampaign c1 s t = .ok (c2, evs2)) :
    balanceOf c1 a = balanceOf c a ∧
    c1.fhe.getVal (balanceOf c1 a) = c.fhe.getVal (balanceOf c a) ∧
    balanceOf c2 a = balanceOf c a ∧
    c2.fhe.getVal (balanceOf c2 a) = c.fhe.getVal (balanceOf c a) ∧
    c2.fhe.getVal c2.totalDonations = 0 := by
  have hE := endCampaign_ok c s c1 evs1 hEnd
  have hW1 : 1 ≤ c1.fhe.nextHandle := by
    rw [hE.2.2.1]
    exact hWf
  have hS := startCampaign_ok c1 s t c2 evs2 hW1 hStart
  have hbal1 : balanceOf c1 a = balanceOf c a := by
    unfold balanceOf
    rw [hE.2.2.2.2.1]
  have hval1 : c1.fhe.getVal (balanceOf c1 a)
      = c.fhe.getVal (balanceOf c a) := by
    rw [hbal1, hE.2.1]
  have hbal2 : balanceOf c2 a = balanceOf c1 a := by
    unfold balanceOf
    rw [hS.2.2.2.2.2.1]
  have hlt : balanceOf c a < c1.fhe.nextHandle := by
    rw [hE.2.2.1]
    exact hB
  refine ⟨hbal1, hval1, by rw [hbal2, hbal1], ?_, hS.1⟩
  rw [hbal2, hbal1, hS.2.2.2.2.2.2 (balanceOf c a) hlt, hE.2.1]

/-- C7 witness: donor `2` keeps handle and plaintext of the first-campaign
balance through `endCampaign` and the second `startCampaign`, and the new
campaign's total starts at zero. -/
theorem C7_donor_balances_persist_witness :
    balanceOf xcEnd 2 = balanceOf xcDon1 2 ∧
    xcEnd.fhe.getVal (balanceOf xcEnd 2) =
      xcDon1.fhe.getVal (balanceOf xcDon1 2) ∧
    balanceOf xcStart2 2 = balanceOf xcDon1 2 ∧
    xcStart2.fhe.getVal (balanceOf xcStart2 2) =
      xcDon1.fhe.getVal (balanceOf xcDon1 2) ∧
    xcStart2.fhe.getVal xcStart2.totalDonations = 0 :=
  C7_donor_balances_persist xcDon1 xcEnd xcStart2 1 2 555
    (okEvents (endCampaign xcDon1 1))
    (okEvents (startCampaign xcEnd 1 555)) (by decide) (by decide) rfl rfl

/-- C9: the progress callback is independent of the lifecycle flag
(flipping `campaignActive` changes nothing in its outcome except the flag
it carries along, so the callback is never rejected for the campaign being
inactive), and a progress completion arriving after `endCampaign` — even
with a further donation between the request and the end — succeeds and
reports exactly the total and target plaintexts snapshotted at request
time. -/
theorem C9_progress_after_end
    (cA : State) (b : Bool) (ridA : Nat) (ctsA : List Nat)
    (c c1 c1' c3 : State) (rid dS dV dA s : Nat)
    (evsD evsE : List Event)
    (hWf : 1 ≤ c.fhe.nextHandle)
    (hT : c.totalDonations < c.fhe.nextHandle)
    (hG : c.targetAmount < c.fhe.nextHandle)
    (hReq : requestProgress c = .ok (c1, rid))
    (hDon : donate c1 dS dV dA = .ok (c1', evsD))
    (hEnd : endCampaign c1' s = .ok (c3, evsE)) :
    (callbackProgress { cA with campaignActive := b } ridA ctsA =
      (callbackProgress cA ridA ctsA).map
        (fun p => ({ p.1 with campaignActive := b }, p.2))) ∧
    c3.campaignActive = false ∧
    c3.fhe.checkSignatures rid
      [c.fhe.getVal c.totalDonations, c.fhe.getVal c.targetAmount]
      = true ∧
    (c.fhe.getVal c.targetAmount = 0 →
      callbackProgress c3 rid
          [c.fhe.getVal c.totalDonations, c.fhe.getVal c.targetAmount]
        = .ok (c3, [Event.CampaignProgress
            (c.fhe.getVal c.totalDonations)
            (c.fhe.getVal c.targetAmount) 0])) ∧
    (0 < c.fhe.getVal c.targetAmount →
      c.fhe.getVal c.totalDonations * 100 < U128 →
      callbackProgress c3 rid
          [c.fhe.getVal c.totalDonations, c.fhe.getVal c.targetAmount]
        = .ok (c3, [Event.CampaignProgress
            (c.fhe.getVal c.totalDonations)
            (c.fhe.getVal c.targetAmount)
            (c.fhe.getVal c.totalDonations * 100 /
              c.fhe.getVal c.targetAmount)])) := by
  have hR := requestProgress_ok c c1 rid hReq
  have hD := donate_ok c1 dS dV dA c1' evsD
    (by rw [hR.2.2.2.1]; exact hWf)
    (by rw [hR.2.2.2.2.2.1, hR.2.2.2.1]; exact hT) hDon
  have hE := endCampaign_ok c1' s c3 evsE hEnd
  have hIss1 : c1'.fhe.issued rid
      = some [c.totalDonations, c.targetAmount] := by
    rw [hD.2.2.2.1, hR.1]
    exact hR.2.1
  have hne : rid ≠ c1'.fhe.nextRequestId := by
    rw [hD.2.2.2.2.1, hR.2.2.2.2.1, hR.1]
    omega
  have hIss3 : c3.fhe.issued rid
      = some [c.totalDonations, c.targetAmount] := by
    rw [hE.2.2.2.2.2.2.2.2 rid hne]
    exact hIss1
  have hvT : c3.fhe.getVal c.totalDonations
      = c.fhe.getVal c.totalDonations := by
    rw [hE.2.1,
      hD.2.2.2.2.2.2.2.2 c.totalDonations (by rw [hR.2.2.2.1]; exact hT),
      hR.2.2.1]
  have hvG : c3.fhe.getVal c.targetAmount
      = c.fhe.getVal c.targetAmount := by
    rw [hE.2.1,
      hD.2.2.2.2.2.2.2.2 c.targetAmount (by rw [hR.2.2.2.1]; exact hG),
      hR.2.2.1]
  have hSig : c3.fhe.checkSignatures rid
      [c.fhe.getVal c.totalDonations, c.fhe.getVal c.targetAmount]
      = true := by
    simp [FHEState.checkSignatures, hIss3, hvT, hvG]
  have hmap : ∀ (cc : State) (bb : Bool) (r : Nat) (cs : List Nat),
      callbackProgress { cc with campaignActive := bb } r cs =
        (callbackProgress cc r cs).map
          (fun p => ({ p.1 with campaignActive := bb }, p.2)) := by
    intro cc bb r cs
    unfold callbackProgress
    cases hs : cc.fhe.checkSignatures r cs with
    | false => simp [hs, Except.map]
    | true =>
      rcases cs with _ | ⟨x, _ | ⟨y, _ | z⟩⟩
      · simp [hs, Except.map]
      · simp [hs, Except.map]
      · simp only [hs, if_true]
        split_ifs <;> simp [Except.map]
      · simp [hs, Except.map]
  refine ⟨hmap cA b ridA ctsA, hE.2.2.2.1, hSig, ?_, ?_⟩
  · intro h0
    rw [h0] at hSig ⊢
    simp [callbackProgress, hSig]
  · intro hpos hlt
    simp [callbackProgress, hSig, hpos, hlt]

/-- C9 witness: the frozen-total trace — request at total `50`, target
`200`, then a donation of `7` and `endCampaign`; the late progress
callback still succeeds on the inactive campaign and reports `50/200`. -/
theorem C9_progress_after_end_witness :
    frEnd.campaignActive = false ∧
    frEnd.fhe.checkSignatures 1
      [prDon.fhe.getVal prDon.totalDonations,
       prDon.fhe.getVal prDon.targetAmount] = true ∧
    callbackProgress frEnd 1
        [prDon.fhe.getVal prDon.totalDonations,
         prDon.fhe.getVal prDon.targetAmount]
      = .ok (frEnd, [Event.CampaignProgress
          (prDon.fhe.getVal prDon.totalDonations)
          (prDon.fhe.getVal prDon.targetAmount)
          (prDon.fhe.getVal prDon.totalDonations * 100 /
            prDon.fhe.getVal prDon.targetAmount)]) :=
  have h := C9_progress_after_end deploy true 0 [] prDon prReq frDon2 frEnd
    1 3 7 7 1 (okEvents (donate prReq 3 7 7))
    (okEvents (endCampaign frDon2 1)) (by decide) (by decide) (by decide)
    rfl rfl rfl
  ⟨h.2.1, h.2.2.1, h.2.2.2.2 (by decide) (by decide)⟩

end Donate
